import Mathlib

/-!
Shallow embedding of `pori` (src/src/lib.rs): a location- and state-tracking
input adapter for the nom parser-combinator library.

The inner input (`&str` / `&[u8]` behind the `Input`/`Offset` traits) is
modelled by `Slice`: a pointer (the absolute address of the first element,
as an index into the original buffer) together with the list of elements in
view.  nom's slice operations (`take` = prefix, `take_from` = suffix,
`take_split` = (suffix, prefix), `position` = first index satisfying the
predicate, pointer-difference `offset`) are embedded on `Slice`.

`Located` and `Stateful` mirror the two wrapper structs of the source and
each operation is translated statement by statement from the corresponding
Rust method.  nom's generic error parameter `E : ParseError<Self>` is
instantiated at nom's default `nom::error::Error` (here `NomError`), whose
`from_error_kind(input, kind)` is exactly the constructor.
-/

/-- nom's `ErrorKind` (only the shape matters to this layer). -/
inductive ErrorKind where
  | eof
  | other (n : Nat)
deriving DecidableEq, Repr

/-- nom's `Needed`; `Needed::new n` is `size n`. -/
inductive Needed where
  | unknown
  | size (n : Nat)
deriving DecidableEq, Repr

/-- nom's `Err<E>`: the three failure signal kinds. -/
inductive ErrorMode (E : Type) where
  | incomplete (needed : Needed)
  | error (e : E)
  | failure (e : E)
deriving DecidableEq, Repr

/-- nom's default error type `nom::error::Error<I>`:
`from_error_kind(input, code)` is the plain constructor. -/
structure NomError (I : Type) where
  input : I
  code : ErrorKind
deriving DecidableEq, Repr

/-- `IResult<I, O, E> = Result<(I, O), Err<E>>`. -/
inductive IResult (I O E : Type) where
  | ok (value : I × O)
  | err (mode : ErrorMode E)
deriving DecidableEq, Repr

/-- The inner input: a Rust slice, modelled as the absolute index of its
first element within the original buffer plus the elements in view. -/
structure Slice (α : Type) where
  ptr : Nat
  data : List α
deriving DecidableEq, Repr

/-- nom `Input::input_len` for slices. -/
def Slice.input_len (s : Slice α) : Nat :=
  s.data.length

/-- nom `Input::take` for slices: the prefix of length `count`, starting at
the same address. -/
def Slice.take (s : Slice α) (count : Nat) : Slice α :=
  ⟨s.ptr, s.data.take count⟩

/-- nom `Input::take_from` for slices: the suffix from `index`, whose first
element sits `index` places later in the buffer. -/
def Slice.take_from (s : Slice α) (index : Nat) : Slice α :=
  ⟨s.ptr + index, s.data.drop index⟩

/-- nom `Input::take_split` for slices: `(suffix, prefix)`. -/
def Slice.take_split (s : Slice α) (index : Nat) : Slice α × Slice α :=
  (⟨s.ptr + index, s.data.drop index⟩, ⟨s.ptr, s.data.take index⟩)

/-- nom `Input::position` for slices: index of the first element satisfying
the predicate. -/
def Slice.position (s : Slice α) (p : α → Bool) : Option Nat :=
  s.data.findIdx? p

/-- nom `Offset::offset` for slices: pointer difference `other - self`. -/
def Slice.offset (s other : Slice α) : Nat :=
  other.ptr - s.ptr

/-- The `Located` struct: a slice plus the absolute offset of `data[0]`
from the start of the original input. -/
structure Located (α : Type) where
  data : Slice α
  location : Nat
deriving DecidableEq, Repr

/-- `Located::to_data_offset`: re-wrap a sub-slice of `self.data`, deriving
its location from the pointer offset. -/
def Located.to_data_offset (s : Located α) (data : Slice α) : Located α :=
  ⟨data, s.location + s.data.offset data⟩

/-- `From<&I> for Located`: initial wrap at location 0. -/
def Located.fromData (data : Slice α) : Located α :=
  ⟨data, 0⟩

/-- `Input::input_len` for `Located`. -/
def Located.input_len (s : Located α) : Nat :=
  s.data.input_len

/-- `Input::take` for `Located`. -/
def Located.take (s : Located α) (count : Nat) : Located α :=
  s.to_data_offset (s.data.take count)

/-- `Input::take_from` for `Located`, exactly as the source writes it:
`let taken = self.data.take(index); self.to_data_offset(taken)`. -/
def Located.take_from (s : Located α) (index : Nat) : Located α :=
  s.to_data_offset (s.data.take index)

/-- `Input::take_split` for `Located`:
`let (left, right) = self.data.take_split(index);
(self.to_data_offset(left), self.to_data_offset(right))`. -/
def Located.take_split (s : Located α) (index : Nat) : Located α × Located α :=
  let lr := s.data.take_split index
  (s.to_data_offset lr.1, s.to_data_offset lr.2)

/-- `Input::position` for `Located`: delegates to the slice. -/
def Located.position (s : Located α) (p : α → Bool) : Option Nat :=
  s.data.position p

/-- `Input::split_at_position` for `Located`. -/
def Located.split_at_position (s : Located α) (p : α → Bool) :
    IResult (Located α) (Located α) (NomError (Located α)) :=
  match s.data.position p with
  | some n => .ok (s.take_split n)
  | none => .err (.incomplete (.size 1))

/-- `Input::split_at_position1` for `Located`. -/
def Located.split_at_position1 (s : Located α) (p : α → Bool) (kind : ErrorKind) :
    IResult (Located α) (Located α) (NomError (Located α)) :=
  match s.data.position p with
  | some 0 => .err (.error ⟨s, kind⟩)
  | some n => .ok (s.take_split n)
  | none => .err (.incomplete (.size 1))

/-- `Input::split_at_position_complete` for `Located`. -/
def Located.split_at_position_complete (s : Located α) (p : α → Bool) :
    IResult (Located α) (Located α) (NomError (Located α)) :=
  match s.split_at_position p with
  | .err (.incomplete _) => .ok (s.take_split s.input_len)
  | result => result

/-- `Input::split_at_position1_complete` for `Located`. -/
def Located.split_at_position1_complete (s : Located α) (p : α → Bool) (kind : ErrorKind) :
    IResult (Located α) (Located α) (NomError (Located α)) :=
  match s.data.position p with
  | some 0 => .err (.error ⟨s, kind⟩)
  | some n => .ok (s.take_split n)
  | none =>
    if s.data.input_len = 0 then .err (.error ⟨s, kind⟩)
    else .ok (s.take_split s.input_len)

/-- `Offset::offset` for `Located`: `other.location.saturating_sub(self.location)`.
(`Location::location` for `Located` is the field accessor `Located.location`.) -/
def Located.offset (s other : Located α) : Nat :=
  other.location - s.location

/-- The `Stateful` struct: any input plus an opaque caller state.  In this
pure embedding Rust's `state.clone()` is the state value itself. -/
structure Stateful (I T : Type) where
  data : I
  state : T
deriving DecidableEq, Repr

/-- `Stateful::new`. -/
def Stateful.new (data : I) (state : T) : Stateful I T :=
  ⟨data, state⟩

/-- `Stateful::clone_map`: apply `f` to the data, clone the state. -/
def Stateful.clone_map (s : Stateful I T) (f : I → I) : Stateful I T :=
  ⟨f s.data, s.state⟩

/-- `Stateful::clone_map_iresult`: run `f` on the inner data (the inner call
is made at nom's default error type `NomError I`), re-wrap both halves of a
success with a clone of the state, and re-wrap the input inside an
`Error`/`Failure` payload with a clone of the state; `Incomplete` passes
through unchanged. -/
def Stateful.clone_map_iresult (s : Stateful I T)
    (f : I → IResult I I (NomError I)) :
    IResult (Stateful I T) (Stateful I T) (NomError (Stateful I T)) :=
  let map_error : NomError I → NomError (Stateful I T) := fun error =>
    ⟨⟨error.input, s.state⟩, error.code⟩
  match f s.data with
  | .ok (remaining, output) => .ok (⟨remaining, s.state⟩, ⟨output, s.state⟩)
  | .err (.error error) => .err (.error (map_error error))
  | .err (.failure error) => .err (.failure (map_error error))
  | .err (.incomplete needed) => .err (.incomplete needed)

/-!
`Stateful`'s `Input` impl is generic over the inner input `I : Input`; the
inner trait methods are passed explicitly (the trait dictionary).
-/

/-- `Input::take` for `Stateful`, given the inner `take`. -/
def Stateful.take (itake : I → Nat → I) (s : Stateful I T) (count : Nat) :
    Stateful I T :=
  s.clone_map (fun data => itake data count)

/-- `Input::take_from` for `Stateful`, given the inner `take_from`. -/
def Stateful.take_from (itake_from : I → Nat → I) (s : Stateful I T) (index : Nat) :
    Stateful I T :=
  s.clone_map (fun data => itake_from data index)

/-- `Input::take_split` for `Stateful`, given the inner `take_split`:
both halves carry a clone of the state. -/
def Stateful.take_split (itake_split : I → Nat → I × I) (s : Stateful I T)
    (index : Nat) : Stateful I T × Stateful I T :=
  let lr := itake_split s.data index
  (⟨lr.1, s.state⟩, ⟨lr.2, s.state⟩)

/-- `Input::position` for `Stateful`, given the inner `position`. -/
def Stateful.position (iposition : I → (α → Bool) → Option Nat)
    (s : Stateful I T) (p : α → Bool) : Option Nat :=
  iposition s.data p

/-- `Input::split_at_position` for `Stateful`, given the inner one. -/
def Stateful.split_at_position
    (isplit : I → (α → Bool) → IResult I I (NomError I))
    (s : Stateful I T) (p : α → Bool) :
    IResult (Stateful I T) (Stateful I T) (NomError (Stateful I T)) :=
  s.clone_map_iresult (fun data => isplit data p)

/-- `Input::split_at_position1` for `Stateful`, given the inner one. -/
def Stateful.split_at_position1
    (isplit1 : I → (α → Bool) → ErrorKind → IResult I I (NomError I))
    (s : Stateful I T) (p : α → Bool) (kind : ErrorKind) :
    IResult (Stateful I T) (Stateful I T) (NomError (Stateful I T)) :=
  s.clone_map_iresult (fun data => isplit1 data p kind)

/-- `Input::split_at_position_complete` for `Stateful`, given the inner one. -/
def Stateful.split_at_position_complete
    (isplitc : I → (α → Bool) → IResult I I (NomError I))
    (s : Stateful I T) (p : α → Bool) :
    IResult (Stateful I T) (Stateful I T) (NomError (Stateful I T)) :=
  s.clone_map_iresult (fun data => isplitc data p)

/-- `Input::split_at_position1_complete` for `Stateful`, given the inner one. -/
def Stateful.split_at_position1_complete
    (isplit1c : I → (α → Bool) → ErrorKind → IResult I I (NomError I))
    (s : Stateful I T) (p : α → Bool) (kind : ErrorKind) :
    IResult (Stateful I T) (Stateful I T) (NomError (Stateful I T)) :=
  s.clone_map_iresult (fun data => isplit1c data p kind)

/-- `Location::location` for `Stateful`: forwards to the inner input. -/
def Stateful.location (iloc : I → Nat) (s : Stateful I T) : Nat :=
  iloc s.data

/-- `Offset::offset` for `Stateful`: forwards to the inner input. -/
def Stateful.offset (ioffset : I → I → Nat) (s other : Stateful I T) : Nat :=
  ioffset s.data other.data

/-- The module-level `bof` combinator, generic over any `Clone + Location`
input (the location capability is the passed `loc`); the error type is
instantiated at `NomError I`. -/
def bof (loc : I → Nat) (input : I) : IResult I I (NomError I) :=
  if loc input = 0 then .ok (input, input)
  else .err (.error ⟨input, .eof⟩)

/-- The module-level `span` combinator, generic over any `Clone + Location`
input and any sub-parser `I → IResult I O E`. -/
def span (loc : I → Nat) (parser : I → IResult I O E) (input : I) :
    IResult I ((Nat × Nat) × O) E :=
  let start := loc input
  match parser input with
  | .ok (remaining, output) =>
    .ok (remaining, ((start, loc remaining - start), output))
  | .err e => .err e

/-!
Theorems settling the claims.
-/

/-- C1: for every `Located` span and every valid index `i`, `take_split i`
returns `(right, left)` where `left`'s data is the first `i` elements at the
original location, `right`'s data is the rest at `location + i`, and the two
contents concatenate back to the original content. -/
theorem located_take_split_complementarity (s : Located α) (i : Nat)
    (h : i ≤ s.data.data.length) :
    (s.take_split i).2.data.data = s.data.data.take i ∧
    (s.take_split i).1.data.data = s.data.data.drop i ∧
    (s.take_split i).2.data.data ++ (s.take_split i).1.data.data = s.data.data ∧
    (s.take_split i).2.location = s.location ∧
    (s.take_split i).1.location = s.location + i := by
  refine ⟨rfl, rfl, ?_, ?_, ?_⟩ <;>
    simp [Located.take_split, Located.to_data_offset, Slice.take_split,
      Slice.offset]

theorem located_take_split_complementarity_witness :
    ((⟨⟨0, [10, 20, 30]⟩, 0⟩ : Located Nat).take_split 1).1.location = 0 + 1 :=
  (located_take_split_complementarity (⟨⟨0, [10, 20, 30]⟩, 0⟩ : Located Nat) 1
    (by decide)).2.2.2.2

/-- C2: refuted at a concrete input.  `Located.take_from` as written calls
`self.data.take(index)` (the prefix) and so its pointer offset is 0: on the
span with data `[10, 20, 30]` at location 0, `take_from 1` yields data
`[10]` at location 0, not the suffix `[20, 30]` at location 1 that the
claim (and nom's `Input::take_from` contract) requires. -/
theorem located_take_from_bug :
    ((⟨⟨0, [10, 20, 30]⟩, 0⟩ : Located Nat).take_from 1).data.data = [10] ∧
    ((⟨⟨0, [10, 20, 30]⟩, 0⟩ : Located Nat).take_from 1).location = 0 ∧
    ¬(((⟨⟨0, [10, 20, 30]⟩, 0⟩ : Located Nat).take_from 1).data.data = [20, 30] ∧
      ((⟨⟨0, [10, 20, 30]⟩, 0⟩ : Located Nat).take_from 1).location = 1) := by
  decide

/-- C9: `Located`'s `Offset::offset` is `other.location - self.location`
saturating at zero: it equals the true difference when
`other.location ≥ self.location` and is zero otherwise. -/
theorem located_offset_saturating (a b : Located α) :
    (a.location ≤ b.location →
      (a.offset b : Int) = (b.location : Int) - (a.location : Int)) ∧
    (b.location < a.location → a.offset b = 0) := by
  constructor
  · intro h
    simp only [Located.offset]
    omega
  · intro h
    simp only [Located.offset]
    omega

theorem located_offset_saturating_witness :
    Located.offset (⟨⟨0, []⟩, 5⟩ : Located Nat) ⟨⟨0, []⟩, 2⟩ = 0 :=
  (located_offset_saturating (⟨⟨0, []⟩, 5⟩ : Located Nat) ⟨⟨0, []⟩, 2⟩).2
    (by decide)

/-- C10: when the predicate matches at index 0, the plain
`split_at_position` succeeds with `take_split 0`: an empty consumed prefix
at the original location, and the whole original span (same data, same
location) as the remainder. -/
theorem located_split_at_position_zero_match (s : Located α) (p : α → Bool)
    (h : s.data.position p = some 0) :
    s.split_at_position p = .ok (s.take_split 0) ∧
    (s.take_split 0).2.data.data = [] ∧
    (s.take_split 0).2.location = s.location ∧
    (s.take_split 0).1 = s := by
  obtain ⟨⟨ptr, data⟩, loc⟩ := s
  refine ⟨?_, ?_, ?_, ?_⟩ <;>
    simp [Located.split_at_position, h, Located.take_split,
      Located.to_data_offset, Slice.take_split, Slice.offset]

theorem located_split_at_position_zero_match_witness :
    (⟨⟨0, [10, 20]⟩, 0⟩ : Located Nat).split_at_position (fun n => n == 10) =
      .ok ((⟨⟨0, [10, 20]⟩, 0⟩ : Located Nat).take_split 0) :=
  (located_split_at_position_zero_match (⟨⟨0, [10, 20]⟩, 0⟩ : Located Nat)
    (fun n => n == 10) (by decide)).1

/-- C4: `split_at_position1` signals a recoverable Error built from the
current located input when the predicate matches at index 0, signals
Incomplete needing 1 more element when it never matches, and otherwise
splits at the first match index. -/
theorem located_split_at_position1_policy (s : Located α) (p : α → Bool)
    (kind : ErrorKind) :
    (s.data.position p = some 0 →
      s.split_at_position1 p kind = .err (.error ⟨s, kind⟩)) ∧
    (s.data.position p = none →
      s.split_at_position1 p kind = .err (.incomplete (.size 1))) ∧
    (∀ n, s.data.position p = some n → 0 < n →
      s.split_at_position1 p kind = .ok (s.take_split n)) := by
  refine ⟨?_, ?_, ?_⟩
  · intro h
    simp [Located.split_at_position1, h]
  · intro h
    simp [Located.split_at_position1, h]
  · intro n h hn
    cases n with
    | zero => exact absurd hn (lt_irrefl 0)
    | succ m => simp [Located.split_at_position1, h]

theorem located_split_at_position1_policy_witness :
    (⟨⟨0, [10, 20]⟩, 0⟩ : Located Nat).split_at_position1
        (fun n => n == 10) .eof =
      .err (.error ⟨⟨⟨0, [10, 20]⟩, 0⟩, .eof⟩) :=
  (located_split_at_position1_policy (⟨⟨0, [10, 20]⟩, 0⟩ : Located Nat)
    (fun n => n == 10) .eof).1 (by decide)

/-- C5: `split_at_position1_complete` errors (recoverably, from the current
input) on an index-0 match; errors when the predicate never matches and the
span is empty; and when the predicate never matches on a non-empty span it
succeeds with an empty remainder and the whole span as consumed prefix at
the original location. -/
theorem located_split_at_position1_complete_policy (s : Located α)
    (p : α → Bool) (kind : ErrorKind) :
    (s.data.position p = some 0 →
      s.split_at_position1_complete p kind = .err (.error ⟨s, kind⟩)) ∧
    (s.data.position p = none → s.data.data = [] →
      s.split_at_position1_complete p kind = .err (.error ⟨s, kind⟩)) ∧
    (s.data.position p = none → s.data.data ≠ [] →
      s.split_at_position1_complete p kind = .ok (s.take_split s.input_len) ∧
      (s.take_split s.input_len).1.data.data = [] ∧
      (s.take_split s.input_len).2.data.data = s.data.data ∧
      (s.take_split s.input_len).2.location = s.location ∧
      (s.take_split s.input_len).1.location = s.location + s.input_len) := by
  refine ⟨?_, ?_, ?_⟩
  · intro h
    simp [Located.split_at_position1_complete, h]
  · intro h hempty
    simp [Located.split_at_position1_complete, h, Slice.input_len, hempty]
  · intro h hne
    have hlen : s.data.data.length ≠ 0 := by
      simpa using hne
    refine ⟨?_, ?_, ?_, ?_, ?_⟩ <;>
      simp [Located.split_at_position1_complete, h, Slice.input_len, hlen,
        Located.take_split, Located.to_data_offset, Slice.take_split,
        Slice.offset, Located.input_len]

theorem located_split_at_position1_complete_policy_witness :
    (⟨⟨0, ([] : List Nat)⟩, 0⟩ : Located Nat).split_at_position1_complete
        (fun _ => false) (.other 3) =
      .err (.error ⟨⟨⟨0, []⟩, 0⟩, .other 3⟩) :=
  (located_split_at_position1_complete_policy
    (⟨⟨0, ([] : List Nat)⟩, 0⟩ : Located Nat) (fun _ => false)
    (.other 3)).2.1 (by decide) (by decide)

/-- C6: when the predicate never matches, `split_at_position_complete`
succeeds (never errors), returning an empty remainder at
`location + input_len` and the whole remaining span as the consumed prefix
at the original location. -/
theorem located_split_at_position_complete_policy (s : Located α)
    (p : α → Bool) (h : s.data.position p = none) :
    s.split_at_position_complete p = .ok (s.take_split s.input_len) ∧
    (s.take_split s.input_len).1.data.data = [] ∧
    (s.take_split s.input_len).2.data.data = s.data.data ∧
    (s.take_split s.input_len).2.location = s.location ∧
    (s.take_split s.input_len).1.location = s.location + s.input_len := by
  refine ⟨?_, ?_, ?_, ?_, ?_⟩ <;>
    simp [Located.split_at_position_complete, Located.split_at_position, h,
      Located.take_split, Located.to_data_offset, Slice.take_split,
      Slice.offset, Slice.input_len, Located.input_len]

theorem located_split_at_position_complete_policy_witness :
    (⟨⟨0, [10, 20, 30]⟩, 0⟩ : Located Nat).split_at_position_complete
        (fun _ => false) =
      .ok ((⟨⟨0, [10, 20, 30]⟩, 0⟩ : Located Nat).take_split
        (⟨⟨0, [10, 20, 30]⟩, 0⟩ : Located Nat).input_len) :=
  (located_split_at_position_complete_policy
    (⟨⟨0, [10, 20, 30]⟩, 0⟩ : Located Nat) (fun _ => false) (by decide)).1

/-- Every outcome of a `Stateful` result carries `s.state`: both halves of
a success, and the input wrapped by an `Error` or `Failure` payload. -/
def statePreserved (s : Stateful I T)
    (r : IResult (Stateful I T) (Stateful I T) (NomError (Stateful I T))) :
    Prop :=
  (∀ rem out, r = .ok (rem, out) → rem.state = s.state ∧ out.state = s.state) ∧
  (∀ e, r = .err (.error e) → e.input.state = s.state) ∧
  (∀ e, r = .err (.failure e) → e.input.state = s.state)

/-- C3: for every `Stateful` span, every slicing operation (`take`,
`take_from`, `take_split` and all four `split_at_position*` variants, over
any inner input) carries the state unchanged on every output — the
remaining and consumed halves of every success, and the input wrapped by
every surfaced `Error`/`Failure`. -/
theorem stateful_state_invariance (s : Stateful I T)
    (itake itake_from : I → Nat → I) (itake_split : I → Nat → I × I)
    (n : Nat) (p : α → Bool) (kind : ErrorKind)
    (isplit : I → (α → Bool) → IResult I I (NomError I))
    (isplit1 : I → (α → Bool) → ErrorKind → IResult I I (NomError I))
    (isplitc : I → (α → Bool) → IResult I I (NomError I))
    (isplit1c : I → (α → Bool) → ErrorKind → IResult I I (NomError I)) :
    (Stateful.take itake s n).state = s.state ∧
    (Stateful.take_from itake_from s n).state = s.state ∧
    (Stateful.take_split itake_split s n).1.state = s.state ∧
    (Stateful.take_split itake_split s n).2.state = s.state ∧
    statePreserved s (Stateful.split_at_position isplit s p) ∧
    statePreserved s (Stateful.split_at_position1 isplit1 s p kind) ∧
    statePreserved s (Stateful.split_at_position_complete isplitc s p) ∧
    statePreserved s (Stateful.split_at_position1_complete isplit1c s p kind) := by
  have key : ∀ f : I → IResult I I (NomError I),
      statePreserved s (s.clone_map_iresult f) := by
    intro f
    unfold statePreserved Stateful.clone_map_iresult
    refine ⟨?_, ?_, ?_⟩
    · intro rem out h
      split at h <;> simp_all
      obtain ⟨h1, h2⟩ := h
      subst h1
      subst h2
      exact ⟨rfl, rfl⟩
    · intro e h
      split at h <;> simp_all
      subst h
      rfl
    · intro e h
      split at h <;> simp_all
      subst h
      rfl
  exact ⟨rfl, rfl, rfl, rfl, key _, key _, key _, key _⟩

theorem stateful_state_invariance_witness :
    (⟨⟨⟨1, [20, 30]⟩, 1⟩, 7⟩ : Stateful (Located Nat) Nat).state = 7 ∧
    (⟨⟨⟨0, [10]⟩, 0⟩, 7⟩ : Stateful (Located Nat) Nat).state = 7 :=
  ((stateful_state_invariance (α := Nat)
      (⟨⟨⟨0, [10, 20, 30]⟩, 0⟩, 7⟩ : Stateful (Located Nat) Nat)
      Located.take Located.take_from Located.take_split 1 (fun n => n == 20)
      (.other 0) Located.split_at_position Located.split_at_position1
      Located.split_at_position_complete
      Located.split_at_position1_complete).2.2.2.2.1.1
    ⟨⟨⟨1, [20, 30]⟩, 1⟩, 7⟩ ⟨⟨⟨0, [10]⟩, 0⟩, 7⟩ (by decide))

/-- C7: `bof` succeeds, returning the input unchanged as both remaining
and output, exactly when the location capability reports 0; at any nonzero
location it signals a recoverable Error (never Failure or Incomplete)
wrapping the input, for any location-capable input type. -/
theorem bof_correct (I : Type) (loc : I → Nat) (input : I) :
    (bof loc input = .ok (input, input) ↔ loc input = 0) ∧
    (loc input ≠ 0 → bof loc input = .err (.error ⟨input, .eof⟩)) := by
  constructor
  · constructor
    · intro h
      by_contra hne
      simp [bof, hne] at h
    · intro h
      simp [bof, h]
  · intro h
    simp [bof, h]

theorem bof_correct_witness :
    bof Located.location (⟨⟨1, [20]⟩, 1⟩ : Located Nat) =
      .err (.error ⟨⟨⟨1, [20]⟩, 1⟩, .eof⟩) :=
  (bof_correct (Located Nat) Located.location ⟨⟨1, [20]⟩, 1⟩).2 (by decide)

/-- C8: whenever the sub-parser succeeds, `span` succeeds with the same
remainder and pairs the output with `(start, end - start)` where `start`
is the input's location before the parse, `end` the remainder's location,
and the subtraction saturates at zero; the location capability is an
arbitrary function, so this holds for any stack of wrappers. -/
theorem span_correct (I O E : Type) (loc : I → Nat)
    (parser : I → IResult I O E) (input rem : I) (out : O)
    (h : parser input = .ok (rem, out)) :
    span loc parser input =
      .ok (rem, ((loc input, loc rem - loc input), out)) := by
  simp [span, h]

theorem span_correct_witness :
    span Located.location
      (fun i => IResult.ok (E := NomError (Located Nat))
        ((i.take_split 2).1, (i.take_split 2).2))
      (⟨⟨0, [10, 20, 30]⟩, 0⟩ : Located Nat) =
      .ok (⟨⟨2, [30]⟩, 2⟩, ((0, 2 - 0), ⟨⟨0, [10, 20]⟩, 0⟩)) :=
  span_correct (Located Nat) (Located Nat) (NomError (Located Nat))
    Located.location
    (fun i => IResult.ok (E := NomError (Located Nat))
      ((i.take_split 2).1, (i.take_split 2).2))
    (⟨⟨0, [10, 20, 30]⟩, 0⟩ : Located Nat) ⟨⟨2, [30]⟩, 2⟩
    ⟨⟨0, [10, 20]⟩, 0⟩ (by decide)
